import Mathlib

/-!
Shallow embedding of `src/app.py` (refugee registration form application).

The source is a single Flask module with one helper (`allowed_file`), the
submission handler (`submit_form`), and the listing handler
(`view_registrations`).  We model the persisted world (the
`registrations.json` file and the `uploads/` directory) as an explicit
state record, form data as an association list (mirroring `request.form`),
and each Python string operation by a Lean function on the string's
character list.  Strings are treated as ASCII character sequences:
`str.isdigit` is modelled by `Char.isDigit` and `str.strip()` by dropping
`Char.isWhitespace` characters from both ends (Python additionally strips
`\x0b`/`\x0c`; no claim depends on those characters).
-/

/-- Python `s.strip()` on the character list: drop whitespace from both ends. -/
def stripChars (l : List Char) : List Char :=
  ((l.dropWhile Char.isWhitespace).reverse.dropWhile Char.isWhitespace).reverse

/-- Python `s.strip()`. -/
def pyStrip (s : String) : String :=
  String.mk (stripChars s.data)

/-- Python `s.isdigit()` (ASCII): non-empty and every character a digit. -/
def pyIsdigit (s : String) : Bool :=
  !s.data.isEmpty && s.data.all Char.isDigit

/-- Python `int(s)` for a string of decimal digits (the only use in the
source is guarded by `isdigit`). -/
def pyInt (s : String) : Nat :=
  s.data.foldl (fun n c => 10 * n + (c.toNat - '0'.toNat)) 0

/-- Python `s.lower()` (ASCII). -/
def pyLower (s : String) : String :=
  String.mk (s.data.map Char.toLower)

/-- `ALLOWED_EXTENSIONS = {"png", "jpg", "jpeg", "pdf"}` (src/app.py line 16). -/
def ALLOWED_EXTENSIONS : List String := ["png", "jpg", "jpeg", "pdf"]

/-- The characters of `filename.rsplit('.', 1)[1]`: everything after the last
dot (meaningful only when a dot occurs). -/
def afterLastDot (s : String) : String :=
  String.mk ((s.data.reverse.takeWhile (fun c => c ≠ '.')).reverse)

/-- `allowed_file` (src/app.py lines 19-24):
`'.' in filename and filename.rsplit('.', 1)[1].lower() in ALLOWED_EXTENSIONS`. -/
def allowed_file (filename : String) : Bool :=
  filename.data.contains '.' && ALLOWED_EXTENSIONS.contains (pyLower (afterLastDot filename))

/-- Python `filename.split()`: split on whitespace runs, no empty pieces.
`acc` holds the current word reversed. -/
def splitWsAux : List Char → List Char → List (List Char)
  | [], acc => if acc.isEmpty then [] else [acc.reverse]
  | c :: cs, acc =>
    if c.isWhitespace then
      if acc.isEmpty then splitWsAux cs [] else acc.reverse :: splitWsAux cs []
    else splitWsAux cs (c :: acc)

/-- Characters kept by werkzeug's `_filename_ascii_strip_re`: `[A-Za-z0-9_.-]`. -/
def keepFilenameChar (c : Char) : Bool :=
  c.isAlphanum || c = '_' || c = '.' || c = '-'

/-- `werkzeug.utils.secure_filename` restricted to ASCII input on a POSIX
system (no NFKD normalisation step, `os.sep = '/'`, no `altsep`, no Windows
special device names): replace the path separator by a space, join the
whitespace-split pieces with underscores, drop characters outside
`[A-Za-z0-9_.-]`, and strip leading/trailing `'.'` and `'_'`. -/
def secure_filename (filename : String) : String :=
  let noSep := filename.data.map (fun c => if c = '/' then ' ' else c)
  let joined := (List.intercalate ['_'] (splitWsAux noSep []))
  let kept := joined.filter keepFilenameChar
  String.mk (((kept.dropWhile (fun c => c = '.' || c = '_')).reverse.dropWhile
      (fun c => c = '.' || c = '_')).reverse)

/-- One persisted registration record: the dictionary appended at
src/app.py lines 137-153.  It always carries these fifteen fields;
`image_filename` is `none` for the JSON `null`. -/
structure Registration where
  name : String
  country : String
  age : Nat
  gender : String
  dob : String
  phone : String
  id_type : String
  id_value : String
  emergency_name : String
  emergency_phone : String
  traveling_family : String
  medical_concerns : String
  medical_details : String
  current_residence : String
  image_filename : Option String
deriving Repr, DecidableEq

/-- The persisted world: `registrations.json` (`none` when the file does not
exist, otherwise the decoded list) and the log of file names written to the
`uploads/` directory, in write order. -/
structure FileState where
  registrations : Option (List Registration)
  uploads : List String
deriving Repr, DecidableEq

/-- One incoming POST to `/submit`: the form fields (`request.form`, an
association list looked up by key) and the optional `image` file part
(`some fn` when a file part with filename `fn` was sent). -/
structure Submission where
  form : List (String × String)
  image : Option String
deriving Repr, DecidableEq

/-- `request.form.get(key, "")`: first value bound to `key`, else `""`. -/
def formGet (form : List (String × String)) (key : String) : String :=
  (List.lookup key form).getD ""

/-- The local variables collected at src/app.py lines 60-73, with
`.strip()` applied exactly where the source applies it. -/
structure Fields where
  name : String
  country : String
  age : String
  gender : String
  dob : String
  phone : String
  id_type : String
  id_value : String
  emergency_name : String
  emergency_phone : String
  traveling_family : String
  medical_concerns : String
  medical_details : String
  current_residence : String
deriving Repr, DecidableEq

/-- Field collection (src/app.py lines 60-73). -/
def collectFields (sub : Submission) : Fields where
  name := pyStrip (formGet sub.form "name")
  country := pyStrip (formGet sub.form "country")
  age := pyStrip (formGet sub.form "age")
  gender := formGet sub.form "gender"
  dob := formGet sub.form "dob"
  phone := pyStrip (formGet sub.form "phone")
  id_type := formGet sub.form "id_type"
  id_value := pyStrip (formGet sub.form "id_value")
  emergency_name := pyStrip (formGet sub.form "emergency_name")
  emergency_phone := pyStrip (formGet sub.form "emergency_phone")
  traveling_family := pyStrip (formGet sub.form "traveling_family")
  medical_concerns := formGet sub.form "medical_concerns"
  medical_details := pyStrip (formGet sub.form "medical_details")
  current_residence := pyStrip (formGet sub.form "current_residence")

/-- The field validation pass of src/app.py lines 80-111: every violated
rule flashes its message and sets the error flag, so the pass amounts to
the concatenation, in source order, of one singleton per violated rule. -/
def fieldErrors (f : Fields) : List String :=
  (if f.name = "" then ["Full Name is required"] else []) ++
  (if f.country = "" then ["Country of Origin is required"] else []) ++
  (if f.age = "" then ["Age is required"] else []) ++
  (if f.age ≠ "" ∧ (pyIsdigit f.age = false ∨ pyInt f.age = 0)
    then ["Age must be a positive number"] else []) ++
  (if f.gender = "" then ["Gender is required"] else []) ++
  (if f.dob = "" then ["Date of Birth is required"] else []) ++
  (if f.phone ≠ "" ∧ pyIsdigit f.phone = false
    then ["Phone number must contain only digits"] else []) ++
  (if f.id_type ≠ "" ∧ f.id_value = ""
    then ["Please enter your " ++ f.id_type ++ " number"] else []) ++
  (if f.medical_concerns = "Yes" ∧ f.medical_details = ""
    then ["Please specify your medical concerns"] else [])

/-- The file-type check of src/app.py lines 113-117: a present, non-empty
filename with a disallowed extension flashes the invalid-type message. -/
def fileErrors (image : Option String) : List String :=
  match image with
  | some fn =>
    if fn ≠ "" ∧ allowed_file fn = false
      then ["Invalid file type. Only PNG, JPG, JPEG, or PDF allowed."] else []
  | none => []

/-- All error messages a submission flashes, in flash order (field checks
lines 80-111, then the file check lines 113-117). -/
def submitErrors (sub : Submission) : List String :=
  fieldErrors (collectFields sub) ++ fileErrors sub.image

/-- The file save of src/app.py lines 118-122: when a non-empty filename
with an allowed extension is present, the file is stored under its
sanitised name (and that name becomes `image_filename`); otherwise nothing
is saved and `image_filename` stays `None`. -/
def savedFile (sub : Submission) : Option String :=
  match sub.image with
  | some fn => if fn ≠ "" ∧ allowed_file fn = true then some (secure_filename fn) else none
  | none => none

/-- The uploads directory after the validation pass: the save at line 121
happens during validation, before the error flag is consulted. -/
def savedUploads (sub : Submission) (st : FileState) : List String :=
  match savedFile sub with
  | some n => st.uploads ++ [n]
  | none => st.uploads

/-- The record built at src/app.py lines 137-153 from the collected fields
(`age` coerced with `int(age)`, reachable only when `age` is all digits). -/
def newRecord (sub : Submission) : Registration where
  name := (collectFields sub).name
  country := (collectFields sub).country
  age := pyInt (collectFields sub).age
  gender := (collectFields sub).gender
  dob := (collectFields sub).dob
  phone := (collectFields sub).phone
  id_type := (collectFields sub).id_type
  id_value := (collectFields sub).id_value
  emergency_name := (collectFields sub).emergency_name
  emergency_phone := (collectFields sub).emergency_phone
  traveling_family := (collectFields sub).traveling_family
  medical_concerns := (collectFields sub).medical_concerns
  medical_details := (collectFields sub).medical_details
  current_residence := (collectFields sub).current_residence
  image_filename := savedFile sub

/-- `submit_form` (src/app.py lines 47-161): collect, validate (saving an
allowed file during the pass), and on no error load the store (empty list
when the file is absent), append the new record and write the whole list
back.  Returns the new persisted state and the flashed messages with their
categories. -/
def submit_form (sub : Submission) (st : FileState) :
    FileState × List (String × String) :=
  let errs := submitErrors sub
  if errs.isEmpty then
    let data := st.registrations.getD []
    (⟨some (data ++ [newRecord sub]), savedUploads sub st⟩,
      [("Registration submitted successfully!", "success")])
  else
    (⟨st.registrations, savedUploads sub st⟩, errs.map (fun m => (m, "error")))

/-- `view_registrations` (src/app.py lines 165-175): the decoded store, or
the empty list when `registrations.json` does not exist. -/
def view_registrations (st : FileState) : List Registration :=
  st.registrations.getD []

/-- A sequence of submissions applied in order (each request's state is the
previous request's result). -/
def submitAll (subs : List Submission) (st : FileState) : FileState :=
  subs.foldl (fun s sub => (submit_form sub s).1) st

/-- Concrete submissions exercised by the witnesses: the spec scenario
{name: Amina, country: Syria, age: 34, gender: F, dob: 1990-01-01} and its
variations (bad age, missing name with a valid file, disallowed file). -/
def amina : Submission :=
  ⟨[("name", "Amina"), ("country", "Syria"), ("age", "34"),
    ("gender", "F"), ("dob", "1990-01-01")], none⟩

/-- The spec scenario with age "-5". -/
def aminaBadAge : Submission :=
  ⟨[("name", "Amina"), ("country", "Syria"), ("age", "-5"),
    ("gender", "F"), ("dob", "1990-01-01")], none⟩

/-- A submission with no name but a valid file attachment. -/
def aminaNoName : Submission :=
  ⟨[("country", "Syria"), ("age", "34"),
    ("gender", "F"), ("dob", "1990-01-01")], some "photo.png"⟩

/-- A valid submission except for a disallowed file extension. -/
def aminaBadFile : Submission :=
  ⟨[("name", "Amina"), ("country", "Syria"), ("age", "34"),
    ("gender", "F"), ("dob", "1990-01-01")], some "notes.txt"⟩

/-- A second valid submission, for the round-trip witness. -/
def omar : Submission :=
  ⟨[("name", "Omar"), ("country", "Iraq"), ("age", "21"), ("gender", "M"),
    ("dob", "2004-05-06"), ("phone", "12345")], none⟩

/-- Collected field values whose age is the lenient-parse string "+5". -/
def agePlusFive : Fields :=
  ⟨"x", "x", "+5", "x", "x", "", "", "", "", "", "", "", "", ""⟩

/-- Fresh-process state: no store file yet, no uploads written. -/
def emptyState : FileState := ⟨none, []⟩

/-- The invariant of a persisted record stated by the spec data model:
required fields non-empty, positive age, id number present when an id type
is set, medical details present when medical concerns is "Yes". -/
def GoodRecord (r : Registration) : Prop :=
  r.name ≠ "" ∧ r.country ≠ "" ∧ r.gender ≠ "" ∧ r.dob ≠ "" ∧ 0 < r.age ∧
    (r.id_type ≠ "" → r.id_value ≠ "") ∧
    (r.medical_concerns = "Yes" → r.medical_details ≠ "")

lemma mem_ite_singleton {x a : String} {c : Prop} [Decidable c] :
    x ∈ (if c then [a] else []) ↔ x = a ∧ c := by
  split <;> simp_all

lemma ite_singleton_eq_nil {a : String} {c : Prop} [Decidable c] :
    (if c then [a] else []) = [] ↔ ¬c := by
  split <;> simp_all

lemma mem_fieldErrors (f : Fields) (m : String) :
    m ∈ fieldErrors f ↔
      (m = "Full Name is required" ∧ f.name = "") ∨
      (m = "Country of Origin is required" ∧ f.country = "") ∨
      (m = "Age is required" ∧ f.age = "") ∨
      (m = "Age must be a positive number" ∧
        (f.age ≠ "" ∧ (pyIsdigit f.age = false ∨ pyInt f.age = 0))) ∨
      (m = "Gender is required" ∧ f.gender = "") ∨
      (m = "Date of Birth is required" ∧ f.dob = "") ∨
      (m = "Phone number must contain only digits" ∧
        (f.phone ≠ "" ∧ pyIsdigit f.phone = false)) ∨
      (m = "Please enter your " ++ f.id_type ++ " number" ∧
        (f.id_type ≠ "" ∧ f.id_value = "")) ∨
      (m = "Please specify your medical concerns" ∧
        (f.medical_concerns = "Yes" ∧ f.medical_details = "")) := by
  simp only [fieldErrors, List.mem_append, mem_ite_singleton, or_assoc]

lemma fieldErrors_eq_nil (f : Fields) :
    fieldErrors f = [] ↔
      (¬f.name = "" ∧ ¬f.country = "" ∧ ¬f.age = "" ∧
        ¬(f.age ≠ "" ∧ (pyIsdigit f.age = false ∨ pyInt f.age = 0)) ∧
        ¬f.gender = "" ∧ ¬f.dob = "" ∧
        ¬(f.phone ≠ "" ∧ pyIsdigit f.phone = false) ∧
        ¬(f.id_type ≠ "" ∧ f.id_value = "") ∧
        ¬(f.medical_concerns = "Yes" ∧ f.medical_details = "")) := by
  simp only [fieldErrors, List.append_eq_nil, ite_singleton_eq_nil, and_assoc]

lemma mem_fileErrors (image : Option String) (m : String) :
    m ∈ fileErrors image ↔
      (m = "Invalid file type. Only PNG, JPG, JPEG, or PDF allowed." ∧
        ∃ fn, image = some fn ∧ fn ≠ "" ∧ allowed_file fn = false) := by
  cases image with
  | none => simp [fileErrors]
  | some fn =>
    simp only [fileErrors, mem_ite_singleton, Option.some.injEq]
    constructor
    · rintro ⟨hm, hc⟩; exact ⟨hm, fn, rfl, hc⟩
    · rintro ⟨hm, fn2, hfn, hc⟩; exact ⟨hm, hfn ▸ hc⟩

lemma fileErrors_eq_nil (image : Option String) :
    fileErrors image = [] ↔
      ∀ fn, image = some fn → (fn = "" ∨ allowed_file fn = true) := by
  cases image with
  | none => simp [fileErrors]
  | some fn =>
    simp only [fileErrors, ite_singleton_eq_nil, not_and, not_or, Option.some.injEq]
    constructor
    · intro h fn2 hfn
      subst hfn
      by_cases he : fn = ""
      · exact Or.inl he
      · have h2 := h he
        cases hb : allowed_file fn
        · exact absurd hb h2
        · exact Or.inr rfl
    · intro h hne
      rcases h fn rfl with he | hb
      · exact absurd he hne
      · simp [hb]

lemma mem_submitErrors (sub : Submission) (m : String) :
    m ∈ submitErrors sub ↔
      m ∈ fieldErrors (collectFields sub) ∨ m ∈ fileErrors sub.image := by
  simp [submitErrors]

lemma submitErrors_eq_nil (sub : Submission) :
    submitErrors sub = [] ↔
      fieldErrors (collectFields sub) = [] ∧ fileErrors sub.image = [] := by
  simp [submitErrors]

lemma submit_form_ok (sub : Submission) (st : FileState)
    (h : submitErrors sub = []) :
    submit_form sub st =
      (⟨some (view_registrations st ++ [newRecord sub]), savedUploads sub st⟩,
        [("Registration submitted successfully!", "success")]) := by
  simp [submit_form, h, view_registrations]

lemma submit_form_err (sub : Submission) (st : FileState)
    (h : submitErrors sub ≠ []) :
    submit_form sub st =
      (⟨st.registrations, savedUploads sub st⟩,
        (submitErrors sub).map (fun m => (m, "error"))) := by
  simp [submit_form, h]

/-- The id-type message never coincides with any of the fixed messages:
its first nine characters are "Please en". -/
lemma idMsg_ne (t m : String) (hm : m.data.take 9 ≠ "Please en".data) :
    "Please enter your " ++ t ++ " number" ≠ m := by
  intro h
  have hd : ("Please enter your ".data ++ (t.data ++ " number".data)) = m.data := by
    simpa using congrArg String.data h
  apply hm
  have h9 := congrArg (List.take 9) hd
  rw [List.take_append_of_le_length (by decide)] at h9
  rw [← h9]
  decide

lemma fullName_mem_fields (f : Fields) :
    "Full Name is required" ∈ fieldErrors f ↔ f.name = "" := by
  rw [mem_fieldErrors]
  simp [(idMsg_ne f.id_type "Full Name is required" (by decide)).symm]

lemma country_mem_fields (f : Fields) :
    "Country of Origin is required" ∈ fieldErrors f ↔ f.country = "" := by
  rw [mem_fieldErrors]
  simp [(idMsg_ne f.id_type "Country of Origin is required" (by decide)).symm]

lemma ageReq_mem_fields (f : Fields) :
    "Age is required" ∈ fieldErrors f ↔ f.age = "" := by
  rw [mem_fieldErrors]
  simp [(idMsg_ne f.id_type "Age is required" (by decide)).symm]

lemma agePos_mem_fields (f : Fields) :
    "Age must be a positive number" ∈ fieldErrors f ↔
      f.age ≠ "" ∧ (pyIsdigit f.age = false ∨ pyInt f.age = 0) := by
  rw [mem_fieldErrors]
  simp [(idMsg_ne f.id_type "Age must be a positive number" (by decide)).symm]

lemma gender_mem_fields (f : Fields) :
    "Gender is required" ∈ fieldErrors f ↔ f.gender = "" := by
  rw [mem_fieldErrors]
  simp [(idMsg_ne f.id_type "Gender is required" (by decide)).symm]

lemma dob_mem_fields (f : Fields) :
    "Date of Birth is required" ∈ fieldErrors f ↔ f.dob = "" := by
  rw [mem_fieldErrors]
  simp [(idMsg_ne f.id_type "Date of Birth is required" (by decide)).symm]

lemma phone_mem_fields (f : Fields) :
    "Phone number must contain only digits" ∈ fieldErrors f ↔
      f.phone ≠ "" ∧ pyIsdigit f.phone = false := by
  rw [mem_fieldErrors]
  simp [(idMsg_ne f.id_type "Phone number must contain only digits" (by decide)).symm]

lemma idMsg_mem_fields (f : Fields) :
    ("Please enter your " ++ f.id_type ++ " number") ∈ fieldErrors f ↔
      f.id_type ≠ "" ∧ f.id_value = "" := by
  rw [mem_fieldErrors]
  simp [idMsg_ne f.id_type "Full Name is required" (by decide),
    idMsg_ne f.id_type "Country of Origin is required" (by decide),
    idMsg_ne f.id_type "Age is required" (by decide),
    idMsg_ne f.id_type "Age must be a positive number" (by decide),
    idMsg_ne f.id_type "Gender is required" (by decide),
    idMsg_ne f.id_type "Date of Birth is required" (by decide),
    idMsg_ne f.id_type "Phone number must contain only digits" (by decide),
    idMsg_ne f.id_type "Please specify your medical concerns" (by decide)]

lemma medical_mem_fields (f : Fields) :
    "Please specify your medical concerns" ∈ fieldErrors f ↔
      f.medical_concerns = "Yes" ∧ f.medical_details = "" := by
  rw [mem_fieldErrors]
  simp [(idMsg_ne f.id_type "Please specify your medical concerns" (by decide)).symm]

lemma fileMsg_mem (sub : Submission) :
    "Invalid file type. Only PNG, JPG, JPEG, or PDF allowed." ∈ submitErrors sub ↔
      ∃ fn, sub.image = some fn ∧ fn ≠ "" ∧ allowed_file fn = false := by
  rw [mem_submitErrors, mem_fieldErrors, mem_fileErrors]
  simp [(idMsg_ne (collectFields sub).id_type
    "Invalid file type. Only PNG, JPG, JPEG, or PDF allowed." (by decide)).symm]

lemma ageReq_mem (sub : Submission) :
    "Age is required" ∈ submitErrors sub ↔ (collectFields sub).age = "" := by
  rw [mem_submitErrors, ageReq_mem_fields, mem_fileErrors]; simp

lemma agePos_mem (sub : Submission) :
    "Age must be a positive number" ∈ submitErrors sub ↔
      (collectFields sub).age ≠ "" ∧
        (pyIsdigit (collectFields sub).age = false ∨
          pyInt (collectFields sub).age = 0) := by
  rw [mem_submitErrors, agePos_mem_fields, mem_fileErrors]; simp

lemma str_eq_empty_iff (s : String) : s = "" ↔ s.data = [] :=
  ⟨fun h => h ▸ rfl, fun h => String.ext h⟩

lemma pyIsdigit_ne_empty {s : String} (h : pyIsdigit s = true) : s ≠ "" := by
  intro he
  rw [he] at h
  exact absurd h (by decide)

/-- Claim C1: a submission violating any validation rule leaves the
persisted registration store exactly as it was: nothing appended, file
content (including existence) unchanged. -/
theorem c1_store_unchanged_on_invalid (sub : Submission) (st : FileState)
    (h : submitErrors sub ≠ []) :
    (submit_form sub st).1.registrations = st.registrations := by
  rw [submit_form_err sub st h]

theorem c1_store_unchanged_on_invalid_witness :
    submitErrors aminaBadAge ≠ [] ∧
      (submit_form aminaBadAge emptyState).1.registrations = none :=
  ⟨by decide, c1_store_unchanged_on_invalid aminaBadAge emptyState (by decide)⟩

/-- Claim C2 (code bug in src/app.py lines 113-122): a submission whose
name is missing but whose file is valid is rejected, yet the file has
already been written to the uploads directory, contradicting "do not store
the file" on violation. -/
theorem c2_file_saved_despite_invalid :
    submitErrors aminaNoName ≠ [] ∧
      (submit_form aminaNoName emptyState).1.uploads = ["photo.png"] ∧
      (submit_form aminaNoName emptyState).1.registrations = none := by decide

/-- Claim C5: a present file whose name has no dot or whose
lowercased last-dot extension is outside the whitelist is rejected with
the file-type message, and neither the uploads directory nor the store
changes. -/
theorem c5_disallowed_file_rejected (sub : Submission) (st : FileState)
    (fn : String) (himg : sub.image = some fn) (hne : fn ≠ "")
    (hext : fn.data.contains '.' = false ∨
      pyLower (afterLastDot fn) ∉ ALLOWED_EXTENSIONS) :
    "Invalid file type. Only PNG, JPG, JPEG, or PDF allowed." ∈ submitErrors sub ∧
      (submit_form sub st).1.uploads = st.uploads ∧
      (submit_form sub st).1.registrations = st.registrations := by
  have hfalse : allowed_file fn = false := by
    rcases hext with h | h
    · have h2 : '.' ∉ fn.data := by simpa using h
      simp [allowed_file]
      intro hc
      exact absurd hc h2
    · simp [allowed_file, h]
  have hmem : "Invalid file type. Only PNG, JPG, JPEG, or PDF allowed." ∈ submitErrors sub :=
    (fileMsg_mem sub).2 ⟨fn, himg, hne, hfalse⟩
  have herr : submitErrors sub ≠ [] := List.ne_nil_of_mem hmem
  refine ⟨hmem, ?_, ?_⟩
  · rw [submit_form_err sub st herr]
    simp [savedUploads, savedFile, himg, hfalse]
  · rw [submit_form_err sub st herr]

theorem c5_disallowed_file_rejected_witness :
    aminaBadFile.image = some "notes.txt" ∧
      ("notes.txt" : String) ≠ "" ∧
      pyLower (afterLastDot "notes.txt") ∉ ALLOWED_EXTENSIONS ∧
      ("Invalid file type. Only PNG, JPG, JPEG, or PDF allowed." ∈ submitErrors aminaBadFile ∧
        (submit_form aminaBadFile emptyState).1.uploads = [] ∧
        (submit_form aminaBadFile emptyState).1.registrations = none) :=
  ⟨rfl, by decide, by decide,
    c5_disallowed_file_rejected aminaBadFile emptyState "notes.txt" rfl
      (by decide) (Or.inr (by decide))⟩

/-- Claim C7: a successful submission appends exactly its one new record
at the end, leaving every previous record in place; a failed submission
leaves the store untouched (and the listing operation reads without
writing), so no operation updates or deletes an existing record. -/
theorem c7_append_only (sub : Submission) (st : FileState) :
    (submitErrors sub = [] →
      view_registrations (submit_form sub st).1 =
        view_registrations st ++ [newRecord sub]) ∧
    (submitErrors sub ≠ [] →
      (submit_form sub st).1.registrations = st.registrations) := by
  constructor
  · intro h
    rw [submit_form_ok sub st h]
    simp [view_registrations]
  · intro h
    rw [submit_form_err sub st h]

theorem c7_append_only_witness :
    view_registrations (submit_form amina emptyState).1 =
      view_registrations emptyState ++ [newRecord amina] :=
  (c7_append_only amina emptyState).1 (by decide)

/-- Claim C3: an age-specific error occurs exactly when the collected age
string is empty, fails to parse as a decimal integer, or parses to zero;
a positive parse yields no age error, and a successful submission persists
that integer. -/
theorem c3_age_validation (sub : Submission) (st : FileState) :
    (("Age is required" ∈ submitErrors sub ∨
        "Age must be a positive number" ∈ submitErrors sub) ↔
      ((collectFields sub).age = "" ∨
        pyIsdigit (collectFields sub).age = false ∨
        pyInt (collectFields sub).age = 0)) ∧
    (∀ n : Nat, pyIsdigit (collectFields sub).age = true →
      pyInt (collectFields sub).age = n → 0 < n →
      ("Age is required" ∉ submitErrors sub ∧
        "Age must be a positive number" ∉ submitErrors sub) ∧
      (submitErrors sub = [] →
        (submit_form sub st).1.registrations =
          some (view_registrations st ++ [newRecord sub]) ∧
        (newRecord sub).age = n)) := by
  constructor
  · rw [ageReq_mem, agePos_mem]
    constructor
    · rintro (h | ⟨hne, h | h⟩)
      · exact Or.inl h
      · exact Or.inr (Or.inl h)
      · exact Or.inr (Or.inr h)
    · rintro (h | h | h)
      · exact Or.inl h
      · by_cases ha : (collectFields sub).age = ""
        · exact Or.inl ha
        · exact Or.inr ⟨ha, Or.inl h⟩
      · by_cases ha : (collectFields sub).age = ""
        · exact Or.inl ha
        · exact Or.inr ⟨ha, Or.inr h⟩
  · intro n hd hv hn
    have hne := pyIsdigit_ne_empty hd
    refine ⟨⟨?_, ?_⟩, ?_⟩
    · rw [ageReq_mem]; exact hne
    · rw [agePos_mem]
      rintro ⟨-, h | h⟩
      · rw [hd] at h; exact absurd h (by decide)
      · rw [hv] at h; omega
    · intro hok
      rw [submit_form_ok sub st hok]
      exact ⟨rfl, hv⟩

theorem c3_age_validation_witness :
    pyIsdigit (collectFields amina).age = true ∧
      pyInt (collectFields amina).age = 34 ∧
      (("Age is required" ∉ submitErrors amina ∧
          "Age must be a positive number" ∉ submitErrors amina) ∧
        (submitErrors amina = [] →
          (submit_form amina emptyState).1.registrations =
            some (view_registrations emptyState ++ [newRecord amina]) ∧
          (newRecord amina).age = 34)) :=
  ⟨by decide, by decide,
    (c3_age_validation amina emptyState).2 34 (by decide) (by decide) (by decide)⟩

/-- Claim C4: validation checks every rule and reports one message per
violated rule: each of the ten messages occurs in the flashed errors
exactly when its rule is violated, independently of the other rules. -/
theorem c4_all_violations_collected (sub : Submission) :
    ("Full Name is required" ∈ submitErrors sub ↔
      (collectFields sub).name = "") ∧
    ("Country of Origin is required" ∈ submitErrors sub ↔
      (collectFields sub).country = "") ∧
    ("Age is required" ∈ submitErrors sub ↔
      (collectFields sub).age = "") ∧
    ("Age must be a positive number" ∈ submitErrors sub ↔
      (collectFields sub).age ≠ "" ∧
        (pyIsdigit (collectFields sub).age = false ∨
          pyInt (collectFields sub).age = 0)) ∧
    ("Gender is required" ∈ submitErrors sub ↔
      (collectFields sub).gender = "") ∧
    ("Date of Birth is required" ∈ submitErrors sub ↔
      (collectFields sub).dob = "") ∧
    ("Phone number must contain only digits" ∈ submitErrors sub ↔
      (collectFields sub).phone ≠ "" ∧
        pyIsdigit (collectFields sub).phone = false) ∧
    (("Please enter your " ++ (collectFields sub).id_type ++ " number") ∈ submitErrors sub ↔
      (collectFields sub).id_type ≠ "" ∧ (collectFields sub).id_value = "") ∧
    ("Please specify your medical concerns" ∈ submitErrors sub ↔
      (collectFields sub).medical_concerns = "Yes" ∧
        (collectFields sub).medical_details = "") ∧
    ("Invalid file type. Only PNG, JPG, JPEG, or PDF allowed." ∈ submitErrors sub ↔
      ∃ fn, sub.image = some fn ∧ fn ≠ "" ∧ allowed_file fn = false) := by
  refine ⟨?_, ?_, ageReq_mem sub, agePos_mem sub, ?_, ?_, ?_, ?_, ?_, fileMsg_mem sub⟩
  · rw [mem_submitErrors, fullName_mem_fields, mem_fileErrors]; simp
  · rw [mem_submitErrors, country_mem_fields, mem_fileErrors]; simp
  · rw [mem_submitErrors, gender_mem_fields, mem_fileErrors]; simp
  · rw [mem_submitErrors, dob_mem_fields, mem_fileErrors]; simp
  · rw [mem_submitErrors, phone_mem_fields, mem_fileErrors]; simp
  · rw [mem_submitErrors, idMsg_mem_fields, mem_fileErrors]
    simp [idMsg_ne (collectFields sub).id_type
      "Invalid file type. Only PNG, JPG, JPEG, or PDF allowed." (by decide)]
  · rw [mem_submitErrors, medical_mem_fields, mem_fileErrors]; simp

lemma pyIsdigit_of_ne {s : String} (h : s ≠ "") :
    pyIsdigit s = s.data.all Char.isDigit := by
  cases hl : s.data with
  | nil => exact absurd ((str_eq_empty_iff s).2 hl) h
  | cons a l => simp [pyIsdigit, hl]

/-- Claim C9: the age strings accepted by the age checks are exactly the
non-empty all-digit strings of positive value; leniently-parsable strings
such as "+5", "5.0" or " 5" are rejected with the age error. -/
theorem c9_age_grammar :
    (∀ f : Fields,
      ("Age is required" ∉ fieldErrors f ∧
          "Age must be a positive number" ∉ fieldErrors f) ↔
        (f.age ≠ "" ∧ f.age.data.all Char.isDigit = true ∧ 0 < pyInt f.age)) ∧
    (∀ f : Fields, (f.age = "+5" ∨ f.age = "5.0" ∨ f.age = " 5") →
      "Age must be a positive number" ∈ fieldErrors f) := by
  constructor
  · intro f
    rw [ageReq_mem_fields, agePos_mem_fields]
    constructor
    · rintro ⟨h1, h2⟩
      have hnd : ¬(pyIsdigit f.age = false ∨ pyInt f.age = 0) :=
        fun hh => h2 ⟨h1, hh⟩
      push_neg at hnd
      obtain ⟨hdig, hval⟩ := hnd
      rw [Bool.ne_false_iff] at hdig
      rw [pyIsdigit_of_ne h1] at hdig
      exact ⟨h1, hdig, Nat.pos_of_ne_zero hval⟩
    · rintro ⟨h1, h2, h3⟩
      refine ⟨h1, ?_⟩
      rintro ⟨-, hh | hh⟩
      · rw [pyIsdigit_of_ne h1, h2] at hh
        exact absurd hh (by decide)
      · omega
  · rintro f (h | h | h) <;>
      (rw [agePos_mem_fields, h]; exact ⟨by decide, Or.inl (by decide)⟩)

theorem c9_age_grammar_witness :
    "Age must be a positive number" ∈ fieldErrors agePlusFive :=
  c9_age_grammar.2 agePlusFive (Or.inl rfl)

lemma newRecord_good (sub : Submission) (h : submitErrors sub = []) :
    GoodRecord (newRecord sub) := by
  rw [submitErrors_eq_nil] at h
  obtain ⟨hf, -⟩ := h
  rw [fieldErrors_eq_nil] at hf
  obtain ⟨h1, h2, h3, h4, h5, h6, h7, h8, h9⟩ := hf
  have hnd : ¬(pyIsdigit (collectFields sub).age = false ∨
      pyInt (collectFields sub).age = 0) := fun hh => h4 ⟨h3, hh⟩
  push_neg at hnd
  obtain ⟨-, hval⟩ := hnd
  exact ⟨h1, h2, h5, h6, Nat.pos_of_ne_zero hval,
    fun ht hv => h8 ⟨ht, hv⟩, fun hc hv => h9 ⟨hc, hv⟩⟩

/-- Claim C8: the persistence invariant (required fields non-empty,
positive age, id and medical conditionals) holds of every record in the
store after any submission, provided it held before. -/
theorem c8_invariant (sub : Submission) (st : FileState)
    (h : ∀ r ∈ view_registrations st, GoodRecord r) :
    ∀ r ∈ view_registrations (submit_form sub st).1, GoodRecord r := by
  by_cases hok : submitErrors sub = []
  · rw [submit_form_ok sub st hok]
    intro r hr
    simp only [view_registrations, Option.getD_some] at hr
    rcases List.mem_append.1 hr with hold | hnew
    · exact h r hold
    · rw [List.mem_singleton.1 hnew]
      exact newRecord_good sub hok
  · rw [submit_form_err sub st hok]
    exact h

theorem c8_invariant_witness :
    GoodRecord (newRecord amina) :=
  c8_invariant amina emptyState (fun r hr => absurd hr (List.not_mem_nil r))
    (newRecord amina) (by decide)

lemma view_submitAll (subs : List Submission) (st : FileState)
    (h : ∀ sub ∈ subs, submitErrors sub = []) :
    view_registrations (submitAll subs st) =
      view_registrations st ++ subs.map newRecord := by
  induction subs generalizing st with
  | nil => simp [submitAll]
  | cons a as ih =>
    have ha : submitErrors a = [] := h a (List.mem_cons_self a as)
    have has : ∀ s2 ∈ as, submitErrors s2 = [] :=
      fun s2 hs => h s2 (List.mem_cons_of_mem a hs)
    have hstep := ih (submit_form a st).1 has
    simp only [submitAll, List.foldl_cons] at hstep ⊢
    rw [hstep, submit_form_ok a st ha]
    simp [view_registrations]

/-- Claim C6: N valid submissions from an empty or absent store followed
by the listing operation return exactly the N built records, in insertion
order. -/
theorem c6_round_trip (subs : List Submission) (st : FileState)
    (hst : st.registrations = none ∨ st.registrations = some [])
    (h : ∀ sub ∈ subs, submitErrors sub = []) :
    view_registrations (submitAll subs st) = subs.map newRecord := by
  rw [view_submitAll subs st h]
  rcases hst with h0 | h0 <;> simp [view_registrations, h0]

theorem c6_round_trip_witness :
    view_registrations (submitAll [amina, omar] emptyState) =
      [newRecord amina, newRecord omar] :=
  c6_round_trip [amina, omar] emptyState (Or.inl rfl) (by decide)

/-- Claim C10: a successful submission appends exactly the fifteen-field
record built from the collected values: optional text fields missing from
the form are stored as empty strings, and `image_filename` is null
exactly when no non-empty file with an allowed extension was uploaded. -/
theorem c10_record_shape (sub : Submission) (st : FileState)
    (h : submitErrors sub = []) :
    (submit_form sub st).1.registrations =
      some (view_registrations st ++ [newRecord sub]) ∧
    (List.lookup "phone" sub.form = none → (newRecord sub).phone = "") ∧
    (List.lookup "id_type" sub.form = none → (newRecord sub).id_type = "") ∧
    (List.lookup "id_value" sub.form = none → (newRecord sub).id_value = "") ∧
    (List.lookup "emergency_name" sub.form = none →
      (newRecord sub).emergency_name = "") ∧
    (List.lookup "emergency_phone" sub.form = none →
      (newRecord sub).emergency_phone = "") ∧
    (List.lookup "traveling_family" sub.form = none →
      (newRecord sub).traveling_family = "") ∧
    (List.lookup "medical_concerns" sub.form = none →
      (newRecord sub).medical_concerns = "") ∧
    (List.lookup "medical_details" sub.form = none →
      (newRecord sub).medical_details = "") ∧
    (List.lookup "current_residence" sub.form = none →
      (newRecord sub).current_residence = "") ∧
    ((newRecord sub).image_filename = none ↔
      ∀ fn, sub.image = some fn → (fn = "" ∨ allowed_file fn = false)) := by
  refine ⟨?_, ?_, ?_, ?_, ?_, ?_, ?_, ?_, ?_, ?_, ?_⟩
  · rw [submit_form_ok sub st h]
  · intro hl
    show pyStrip (formGet sub.form "phone") = ""
    rw [formGet, hl]
    rfl
  · intro hl
    show formGet sub.form "id_type" = ""
    rw [formGet, hl]
    rfl
  · intro hl
    show pyStrip (formGet sub.form "id_value") = ""
    rw [formGet, hl]
    rfl
  · intro hl
    show pyStrip (formGet sub.form "emergency_name") = ""
    rw [formGet, hl]
    rfl
  · intro hl
    show pyStrip (formGet sub.form "emergency_phone") = ""
    rw [formGet, hl]
    rfl
  · intro hl
    show pyStrip (formGet sub.form "traveling_family") = ""
    rw [formGet, hl]
    rfl
  · intro hl
    show formGet sub.form "medical_concerns" = ""
    rw [formGet, hl]
    rfl
  · intro hl
    show pyStrip (formGet sub.form "medical_details") = ""
    rw [formGet, hl]
    rfl
  · intro hl
    show pyStrip (formGet sub.form "current_residence") = ""
    rw [formGet, hl]
    rfl
  · show savedFile sub = none ↔ _
    cases him : sub.image with
    | none => simp [savedFile, him]
    | some fn =>
      simp only [savedFile, him, Option.some.injEq]
      split_ifs with hc
      · obtain ⟨hne, hal⟩ := hc
        constructor
        · intro hcontra
          exact absurd hcontra (by simp)
        · intro hall
          rcases hall fn rfl with he | hb
          · exact absurd he hne
          · rw [hal] at hb
            exact absurd hb (by decide)
      · constructor
        · intro hnone fn2 hfn
          cases hfn
          by_cases he : fn = ""
          · exact Or.inl he
          · cases hb : allowed_file fn
            · exact Or.inr rfl
            · exact absurd ⟨he, hb⟩ hc
        · intro hall
          rfl

theorem c10_record_shape_witness :
    (submit_form amina emptyState).1.registrations =
      some (view_registrations emptyState ++ [newRecord amina]) ∧
    (List.lookup "phone" amina.form = none → (newRecord amina).phone = "") ∧
    (List.lookup "id_type" amina.form = none → (newRecord amina).id_type = "") ∧
    (List.lookup "id_value" amina.form = none → (newRecord amina).id_value = "") ∧
    (List.lookup "emergency_name" amina.form = none →
      (newRecord amina).emergency_name = "") ∧
    (List.lookup "emergency_phone" amina.form = none →
      (newRecord amina).emergency_phone = "") ∧
    (List.lookup "traveling_family" amina.form = none →
      (newRecord amina).traveling_family = "") ∧
    (List.lookup "medical_concerns" amina.form = none →
      (newRecord amina).medical_concerns = "") ∧
    (List.lookup "medical_details" amina.form = none →
      (newRecord amina).medical_details = "") ∧
    (List.lookup "current_residence" amina.form = none →
      (newRecord amina).current_residence = "") ∧
    ((newRecord amina).image_filename = none ↔
      ∀ fn, amina.image = some fn → (fn = "" ∨ allowed_file fn = false)) :=
  c10_record_shape amina emptyState (by decide)
